import Mathlib

/-!
Verification of the OWASP traffic-scanner core of the PiResearch repository.

The development shallowly embeds the Python sources
`tools/scanners/owasp_traffic_scanner/advanced_traffic_analyzer.py`,
`tools/scanners/owasp_traffic_scanner/logger_service.py` and
`tools/scanners/owasp_traffic_scanner/traffic_analyzer.py`.

Conventions of the embedding:
* Python floats are modelled as rationals (the constants involved are decimal
  literals and the claims are about the algorithmic structure, not rounding).
* Python dictionaries (including `defaultdict`) are modelled as association
  lists with explicit read/store operations mirroring dict semantics.
* The regular-expression engine (`re.search`) is external library code; it is
  abstracted as an oracle `rmatch : String → String → Bool` applied to the
  literal pattern strings of the source.  Likewise the trained sklearn model
  is abstracted by `predict` / `predict_proba` oracles.
* Code that can raise is embedded with `Except String`; a raised exception is
  an `Except.error` naming the Python exception.
-/

namespace PiResearch

/-- Association-list lookup, mirroring Python dict read (first binding wins). -/
def alist_lookup {α : Type} : List (String × α) → String → Option α
  | [], _ => none
  | (k, v) :: rest, key => if k = key then some v else alist_lookup rest key

/-- Association-list store, mirroring Python dict assignment: replace the
binding in place if the key is present, otherwise append a new binding. -/
def alist_store {α : Type} : List (String × α) → String → α → List (String × α)
  | [], key, v => [(key, v)]
  | (k, w) :: rest, key, v =>
      if k = key then (key, v) :: rest else (k, w) :: alist_store rest key v

/-- Association-list removal of a key (used for `os.rename`: the old path
disappears from the file system). -/
def alist_remove {α : Type} : List (String × α) → String → List (String × α)
  | [], _ => []
  | (k0, v0) :: rest, key =>
      if k0 = key then alist_remove rest key
      else (k0, v0) :: alist_remove rest key

theorem alist_lookup_append {α : Type} (l₁ l₂ : List (String × α)) (k : String) :
    alist_lookup (l₁ ++ l₂) k =
      ((alist_lookup l₁ k).rec (alist_lookup l₂ k) (fun v => some v)) := by
  induction l₁ with
  | nil => rfl
  | cons e rest ih =>
      obtain ⟨k0, v0⟩ := e
      by_cases h : k0 = k
      · simp [alist_lookup, h]
      · simp [alist_lookup, h, ih]

theorem alist_lookup_append_none {α : Type} {l : List (String × α)} {k : String}
    (v : α) (h : alist_lookup l k = none) :
    alist_lookup (l ++ [(k, v)]) k = some v := by
  rw [alist_lookup_append, h]
  simp [alist_lookup]

theorem alist_lookup_append_other {α : Type} (l : List (String × α))
    {k k' : String} (v : α) (h : k' ≠ k) :
    alist_lookup (l ++ [(k, v)]) k' = alist_lookup l k' := by
  have h' : ¬ k = k' := fun hk => h hk.symm
  rw [alist_lookup_append]
  cases hl : alist_lookup l k' with
  | none => simp [alist_lookup, h']
  | some w => rfl

theorem alist_lookup_store_self {α : Type} (l : List (String × α))
    (k : String) (v : α) : alist_lookup (alist_store l k v) k = some v := by
  induction l with
  | nil => simp [alist_store, alist_lookup]
  | cons e rest ih =>
      obtain ⟨k0, v0⟩ := e
      by_cases h : k0 = k
      · simp [alist_store, h, alist_lookup]
      · simp [alist_store, h, alist_lookup, ih]

theorem alist_lookup_store_other {α : Type} (l : List (String × α))
    {k k' : String} (v : α) (h : k' ≠ k) :
    alist_lookup (alist_store l k v) k' = alist_lookup l k' := by
  have h' : ¬ k = k' := fun hk => h hk.symm
  induction l with
  | nil => simp [alist_store, alist_lookup, h']
  | cons e rest ih =>
      obtain ⟨k0, v0⟩ := e
      by_cases h0 : k0 = k
      · subst h0
        simp [alist_store, alist_lookup, h']
      · simp [alist_store, h0, alist_lookup, ih]

theorem alist_lookup_store_cases {α : Type} {l : List (String × α)}
    {k k' : String} {v w : α}
    (h : alist_lookup (alist_store l k v) k' = some w) :
    (k' = k ∧ w = v) ∨ alist_lookup l k' = some w := by
  by_cases hk : k' = k
  · subst hk
    rw [alist_lookup_store_self] at h
    exact Or.inl ⟨rfl, (Option.some_injective _ h).symm⟩
  · rw [alist_lookup_store_other l v hk] at h
    exact Or.inr h

theorem alist_lookup_append_cases {α : Type} {l : List (String × α)}
    {k k' : String} {v w : α}
    (h : alist_lookup (l ++ [(k, v)]) k' = some w) :
    alist_lookup l k' = some w ∨ w = v := by
  by_cases hk : k' = k
  · subst hk
    cases hl : alist_lookup l k' with
    | none =>
        rw [alist_lookup_append_none v hl] at h
        exact Or.inr (Option.some_injective _ h).symm
    | some u =>
        rw [alist_lookup_append, hl] at h
        exact Or.inl h
  · rw [alist_lookup_append_other l v hk] at h
    exact Or.inl h

theorem alist_lookup_remove_self {α : Type} (l : List (String × α))
    (k : String) : alist_lookup (alist_remove l k) k = none := by
  induction l with
  | nil => rfl
  | cons e rest ih =>
      obtain ⟨k0, v0⟩ := e
      by_cases h : k0 = k
      · simpa [alist_remove, h] using ih
      · simpa [alist_remove, h, alist_lookup] using ih

theorem alist_lookup_remove_other {α : Type} (l : List (String × α))
    {k k' : String} (h : k' ≠ k) :
    alist_lookup (alist_remove l k) k' = alist_lookup l k' := by
  have h' : ¬ k = k' := fun hk => h hk.symm
  induction l with
  | nil => rfl
  | cons e rest ih =>
      obtain ⟨k0, v0⟩ := e
      by_cases h0 : k0 = k
      · subst h0
        simp [alist_remove, alist_lookup, h', ih]
      · simp [alist_remove, h0, alist_lookup, ih]

/-! ## RegexSignatureMatcher
Embedding of `PiChatAdvancedTrafficAnalyzer._load_enhanced_regex_patterns`
and `analyze_with_regex` (advanced_traffic_analyzer.py, lines 50-173). -/

/-- Literal pattern table of `_load_enhanced_regex_patterns` (apostrophes are
written with the `\x27` escape; the content is the source's raw strings). -/
def regex_patterns : List (String × List String) :=
  [("sql_injection_high_confidence",
     ["(\\bUNION\\s+ALL\\s+SELECT\\b)",
      "(\\bDROP\\s+TABLE\\s+\\w+\\b)",
      "(\x27;\\s*(DROP|DELETE|UPDATE|INSERT))",
      "(\\bWAITFOR\\s+DELAY\\s+\x27[^\x27]+\x27)"]),
   ("sql_injection_medium_confidence",
     ["(\\bOR\\s+\x271\x27=\x271\x27)",
      "(\\bUNION\\s+SELECT\\b)",
      "(\x27;\\s*--)"]),
   ("xss_high_confidence",
     ["<script[^>]*>alert\\([^)]*\\)</script>",
      "javascript:(?:window\\.open|document\\.location)",
      "onload\\s*=\\s*\\\"[^\\\"]*alert[^\\\"]*\\\""]),
   ("xss_medium_confidence",
     ["<script[^>]*>.*</script>",
      "javascript:[^;]+;",
      "on\\w+\\s*=\\s*[^>]+"])]

/-- Tier confidence of a category: `0.9 if 'high_confidence' in name else 0.6`
(substring containment is expressed through `String.splitOn`). -/
def tier_confidence (cat : String) : ℚ :=
  if 2 ≤ (cat.splitOn "high_confidence").length then 9/10 else 6/10

/-- Threat type of a category: `pattern_category.split('_')[0]`. -/
def threat_type_of (cat : String) : String := (cat.splitOn "_").headD cat

/-- Inner pattern loop of `analyze_with_regex`: the first matching pattern of
a category short-circuits it, so a category contributes iff some pattern of it
matches. -/
def category_hit (rmatch : String → String → Bool) (pats : List String)
    (text : String) : Bool :=
  pats.any (fun p => rmatch p text)

structure RegexResult where
  threats_detected : List String
  confidence : ℚ
  pattern_matches : ℕ
deriving DecidableEq

/-- Category accumulation step of the `analyze_with_regex` loop. -/
def regex_step (rmatch : String → String → Bool) (text : String)
    (acc : List String × List ℚ) (cat : String × List String) :
    List String × List ℚ :=
  if category_hit rmatch cat.2 text then
    (acc.1 ++ [threat_type_of cat.1], acc.2 ++ [tier_confidence cat.1])
  else acc

/-- Embedding of `analyze_with_regex` (lines 152-173): one contribution per
matched category, result confidence the mean of the matched tier confidences
(0.0 when nothing matched). -/
def analyze_with_regex (rmatch : String → String → Bool) (text : String) :
    RegexResult :=
  let r := regex_patterns.foldl (regex_step rmatch text) ([], [])
  { threats_detected := r.1,
    confidence := if r.2.isEmpty then 0 else r.2.sum / (r.2.length : ℚ),
    pattern_matches := r.1.length }

/-- Categories whose pattern list has a match, in table order. -/
def matched_categories (rmatch : String → String → Bool) (text : String) :
    List (String × List String) :=
  regex_patterns.filter (fun c => category_hit rmatch c.2 text)

theorem regex_foldl_eq (rmatch : String → String → Bool) (text : String)
    (cats : List (String × List String)) (a : List String) (b : List ℚ) :
    cats.foldl (regex_step rmatch text) (a, b) =
      (a ++ (cats.filter (fun c => category_hit rmatch c.2 text)).map
              (fun c => threat_type_of c.1),
       b ++ (cats.filter (fun c => category_hit rmatch c.2 text)).map
              (fun c => tier_confidence c.1)) := by
  induction cats generalizing a b with
  | nil => simp
  | cons c rest ih =>
      by_cases h : category_hit rmatch c.2 text
      · simp [regex_step, h, ih]
      · simp [regex_step, h, ih]

theorem analyze_with_regex_eq (rmatch : String → String → Bool)
    (text : String) :
    analyze_with_regex rmatch text =
      { threats_detected :=
          (matched_categories rmatch text).map (fun c => threat_type_of c.1),
        confidence :=
          if (matched_categories rmatch text).isEmpty then 0
          else ((matched_categories rmatch text).map
                  (fun c => tier_confidence c.1)).sum /
               ((matched_categories rmatch text).length : ℚ),
        pattern_matches := (matched_categories rmatch text).length } := by
  unfold analyze_with_regex matched_categories
  rw [regex_foldl_eq]
  have he : ∀ (l : List (String × List String)) (f : (String × List String) → ℚ),
      (l.map f).isEmpty = l.isEmpty := by
    intro l f
    cases l <;> simp
  simp only [List.nil_append, List.length_map, he]

theorem tier_confidence_mem (cat : String) :
    tier_confidence cat = 9/10 ∨ tier_confidence cat = 6/10 := by
  unfold tier_confidence
  split <;> simp

theorem sum_bounded_of_forall {l : List ℚ} (h : ∀ x ∈ l, 0 ≤ x ∧ x ≤ 1) :
    0 ≤ l.sum ∧ l.sum ≤ (l.length : ℚ) := by
  induction l with
  | nil => simp
  | cons x rest ih =>
      have hx := h x (List.mem_cons_self x rest)
      have hr := ih (fun y hy => h y (List.mem_cons_of_mem x hy))
      constructor
      · simpa using add_nonneg hx.1 hr.1
      · have : x + rest.sum ≤ 1 + (rest.length : ℚ) :=
          add_le_add hx.2 hr.2
        simpa [add_comm] using this

/-! ## ClassifierAdapter
Embedding of `analyze_with_ml` (advanced_traffic_analyzer.py, lines 132-150).
The sklearn model is external; its outputs are the oracles `predict`
(predicted class) and `predict_proba` (probabilities of classes 0 and 1). -/

structure MlResult where
  threat_level : ℕ
  confidence : ℚ
deriving DecidableEq

/-- Embedding of `analyze_with_ml`: when no model is trained the result is
neutral; otherwise `confidence = probabilities[1] if prediction == 1 else
probabilities[0]`, the probability of the predicted class. -/
def analyze_with_ml (model_trained : Bool) (predict : String → ℕ)
    (predict_proba : String → ℚ × ℚ) (text : String) : MlResult :=
  if !model_trained then { threat_level := 0, confidence := 0 }
  else
    let prediction := predict text
    let probabilities := predict_proba text
    { threat_level := prediction,
      confidence := if prediction = 1 then probabilities.2
                    else probabilities.1 }

/-! ## Base analyzer signal
Embedding of `analyze_with_base` (lines 175-188).  The wrapped base analyzer
call is abstracted by `base_outcome`: `none` models the call raising, and
`some d` models it returning an alert (`d = true`) or `None` (`d = false`). -/

structure BaseResult where
  threat_level : ℕ
  confidence : ℚ
deriving DecidableEq

/-- Embedding of `analyze_with_base`: no base analyzer or a raised exception
gives confidence 0.0, a base detection 0.7 and a clean base pass 0.1. -/
def analyze_with_base (has_base : Bool) (base_outcome : Option Bool) :
    BaseResult :=
  if !has_base then { threat_level := 0, confidence := 0 }
  else
    match base_outcome with
    | none => { threat_level := 0, confidence := 0 }
    | some d =>
        { threat_level := if d then 1 else 0,
          confidence := if d then 7/10 else 1/10 }

/-! ## ReputationTracker
Embedding of `self.reputation_scores = defaultdict(lambda: 100)` (line 45)
and `calculate_reputation_score` (lines 190-197). -/

abbrev RepMap := List (String × ℤ)

/-- Embedding of a `defaultdict(lambda: 100)` read: returns the stored score,
or inserts and returns the default 100 when the key is unseen (the read has
the insertion side effect, so it returns the updated map as well). -/
def rep_read (m : RepMap) (key : String) : ℤ × RepMap :=
  match alist_lookup m key with
  | some v => (v, m)
  | none => (100, m ++ [(key, 100)])

/-- Embedding of `calculate_reputation_score`: `-20` floored at 0 on a threat,
`+1` capped at 100 otherwise; returns the new score and the updated map. -/
def calculate_reputation_score (m : RepMap) (ip : String) (is_threat : Bool) :
    ℤ × RepMap :=
  let r := rep_read m ip
  let s2 := if is_threat then max 0 (r.1 - 20) else min 100 (r.1 + 1)
  (s2, alist_store r.2 ip s2)

/-- A sequence of reputation updates applied in order. -/
def apply_updates (us : List (String × Bool)) (m : RepMap) : RepMap :=
  us.foldl (fun acc u => (calculate_reputation_score acc u.1 u.2).2) m

/-- Statistic `total_tracked_ips = len(self.reputation_scores)` from
`get_security_stats` (line 358). -/
def total_tracked_ips (m : RepMap) : ℕ := m.length

/-! ## FusionDecisionEngine
Embedding of `_fusion_decision` (lines 263-303). -/

structure FusionDecision where
  is_threat : Bool
  final_confidence : ℚ
  weighted_confidence : ℚ
  reputation_factor : ℚ
  confidence_threshold : ℚ
  components_base_confidence : ℚ
  components_regex : RegexResult
  components_ml_confidence : ℚ
deriving DecidableEq

/-- Pure part of `_fusion_decision`, given the reputation score already read
for the source: bucketed weight/threshold selection, weighted sum, reputation
amplification capped at 1.0, and the threshold comparison. -/
def fusion_core (base_conf : ℚ) (regex_res : RegexResult) (ml_conf : ℚ)
    (score : ℤ) : FusionDecision :=
  let rep : ℚ := (score : ℚ) / 100
  let wt : ℚ × ℚ × ℚ × ℚ :=
    if rep > 4/5 then (2/10, 3/10, 5/10, 9/10)
    else if rep < 3/10 then (4/10, 4/10, 2/10, 6/10)
    else (3/10, 4/10, 3/10, 75/100)
  let weighted :=
    base_conf * wt.1 + regex_res.confidence * wt.2.1 + ml_conf * wt.2.2.1
  let adjusted := min 1 (weighted * (1 + (1 - rep) * (3/10)))
  { is_threat := decide (adjusted > wt.2.2.2),
    final_confidence := adjusted,
    weighted_confidence := weighted,
    reputation_factor := rep,
    confidence_threshold := wt.2.2.2,
    components_base_confidence := base_conf,
    components_regex := regex_res,
    components_ml_confidence := ml_conf }

/-- Embedding of `_fusion_decision` with its state: line 265 reads
`self.reputation_scores[ip]`, a `defaultdict` access that inserts the default
for an unseen source, so the possibly-extended map is part of the result. -/
def fusion_decision (m : RepMap) (base_conf : ℚ) (regex_res : RegexResult)
    (ml_conf : ℚ) (ip : String) : FusionDecision × RepMap :=
  let r := rep_read m ip
  (fusion_core base_conf regex_res ml_conf r.1, r.2)

/-! ## AlertFactory
Embedding of `_create_alert` (lines 313-324).  The function builds a dict
whose `timestamp` field is `result['timestamp']`; `result` is the dict
returned by `_fusion_decision`, whose keys are listed below, so the access is
embedded as a checked lookup in that key set. -/

structure Alert where
  threat_type : String
  severity : String
  payload : String
  timestamp : String
  source_ip : String
  confidence : ℚ
  reputation : ℚ
deriving DecidableEq

/-- Keys of the dict returned by `_fusion_decision` (lines 292-303). -/
def fusion_result_keys : List String :=
  ["is_threat", "final_confidence", "weighted_confidence",
   "reputation_factor", "confidence_threshold", "components"]

/-- Embedding of `_create_alert`: builds the alert record, raising `KeyError`
(an `Except.error`) when `result['timestamp']` is read and the fusion result
has no `timestamp` key.  The payload is `str(...)[:100]`. -/
def create_alert (result : FusionDecision) (log_payload log_ip now : String) :
    Except String Alert :=
  if "timestamp" ∈ fusion_result_keys then
    Except.ok
      { threat_type :=
          String.intercalate "|"
            (if result.components_regex.threats_detected.isEmpty then
               ["Suspicious"]
             else result.components_regex.threats_detected),
        severity := if result.final_confidence > 8/10 then "HIGH"
                    else "MEDIUM",
        payload := log_payload.take 100,
        timestamp := now,
        source_ip := log_ip,
        confidence := result.final_confidence,
        reputation := result.reputation_factor }
  else Except.error "KeyError: timestamp"

/-! ## Analysis entry points
Embedding of `hybrid_analysis` (lines 199-261, statistics not needed by the
claims — timing, history, histogram — omitted) and of the ingress of the base
`PiChatTrafficAnalyzer.analyze_log_line` (traffic_analyzer.py, lines 80-121,
detection abstracted by an oracle). -/

/-- Input value handed to the analyzers: a JSON-like object (`dict`) or a
malformed non-object value (`raw`). -/
inductive Event where
  | dict (fields : List (String × String))
  | raw (s : String)
deriving DecidableEq

/-- Field extraction `log_data.get('ip', 'unknown')` (line 206). -/
def event_ip (fields : List (String × String)) : String :=
  (alist_lookup fields "ip").getD "unknown"

/-- Text under analysis, `f"{log_data.get('path', '')} {log_data.get('payload', '')}"`
(line 207). -/
def event_text (fields : List (String × String)) : String :=
  (alist_lookup fields "path").getD "" ++ " " ++
    (alist_lookup fields "payload").getD ""

structure AnalyzerState where
  total_requests : ℕ
  reputation : RepMap
deriving DecidableEq

/-- Embedding of `hybrid_analysis`: the request counter is incremented first
(line 204); for a non-dict value the subsequent `log_data.get` raises
`AttributeError` (line 206) before any signal or the fusion step runs; for a
dict the three signals are computed, fused, and the reputation updated. -/
def hybrid_analysis (st : AnalyzerState) (use_ml has_base : Bool)
    (base_outcome : Option Bool) (rmatch : String → String → Bool)
    (predict : String → ℕ) (predict_proba : String → ℚ × ℚ)
    (model_trained : Bool) (ev : Event) :
    Except String FusionDecision × AnalyzerState :=
  let st1 : AnalyzerState :=
    { st with total_requests := st.total_requests + 1 }
  match ev with
  | .raw _ => (Except.error "AttributeError", st1)
  | .dict fields =>
      let ip := event_ip fields
      let text := event_text fields
      let base_result := analyze_with_base has_base base_outcome
      let regex_result := analyze_with_regex rmatch text
      let ml_result :=
        if use_ml then analyze_with_ml model_trained predict predict_proba text
        else { threat_level := 0, confidence := 0 }
      let fused := fusion_decision st1.reputation base_result.confidence
        regex_result ml_result.confidence ip
      let upd := calculate_reputation_score fused.2 ip fused.1.is_threat
      (Except.ok fused.1, { st1 with reputation := upd.2 })

structure BaseStats where
  total_requests : ℕ
deriving DecidableEq

/-- Ingress of the base `analyze_log_line`: a non-dict value is rejected with
`None` before the request counter is touched (lines 84-88); for a dict the
fields are extracted with defaults and the detection chain (abstracted by
`detect analysis_text user_agent path`) decides whether an alert (here the
source ip) is produced. -/
def base_analyze_log_line (st : BaseStats)
    (detect : String → String → String → Bool) (ev : Event) :
    Option String × BaseStats :=
  match ev with
  | .raw _ => (none, st)
  | .dict fields =>
      let st1 : BaseStats :=
        { st with total_requests := st.total_requests + 1 }
      let ip := event_ip fields
      let path := (alist_lookup fields "path").getD ""
      let user_agent := (alist_lookup fields "user_agent").getD ""
      let payload := (alist_lookup fields "payload").getD ""
      let analysis_text := path ++ " " ++ payload
      if detect analysis_text user_agent path then (some ip, st1)
      else (none, st1)

/-! ## BufferedLogWriter queue discipline
Embedding of `AdvancedLogger.log_event`, `_flush_buffer` and `put_nowait`
(logger_service.py, lines 83-120).  Entries are abstract (naturals); `writes`
is the sequence of entries handed to the synchronous writer
`_write_log_entry_sync` (which itself falls back to the emergency log on a
write failure and returns a boolean); `interference` models entries that
concurrent producers push between the synchronous flush and the retry, which
is what can make the retried `put_nowait` fail again. -/

structure LoggerState where
  buffer : List ℕ
  writes : List ℕ
  capacity : ℕ
deriving DecidableEq

/-- Embedding of `queue.Queue.put_nowait` on a bounded queue: append if below
capacity, otherwise fail (`queue.Full`). -/
def put_nowait (st : LoggerState) (e : ℕ) : Option LoggerState :=
  if st.buffer.length < st.capacity then
    some { st with buffer := st.buffer ++ [e] }
  else none

/-- Embedding of `_flush_buffer`: drain the whole queue, handing every entry
to the synchronous writer. -/
def flush_buffer (st : LoggerState) : LoggerState :=
  { st with buffer := [], writes := st.writes ++ st.buffer }

/-- Embedding of `log_event` (lines 94-120): non-blocking push; on success a
background flush is spawned when the queue is at or above half capacity (the
third component reports it); on `queue.Full` a synchronous flush of the whole
queue, one retried push, and as last resort a direct synchronous write whose
boolean becomes the return value. -/
def log_event (st : LoggerState) (e : ℕ) (interference : List ℕ)
    (direct_write_ok : Bool) : Bool × LoggerState × Bool :=
  match put_nowait st e with
  | some st1 =>
      (true, st1, decide (st1.buffer.length ≥ st1.capacity / 2))
  | none =>
      let st1 := flush_buffer st
      let st2 : LoggerState :=
        { st1 with buffer :=
            st1.buffer ++ interference.take (st1.capacity - st1.buffer.length) }
      match put_nowait st2 e with
      | some st3 => (true, st3, false)
      | none =>
          (direct_write_ok,
           { st2 with writes := st2.writes ++ [e] }, false)

/-! ## BufferedLogWriter file rotation
Embedding of `_write_log_entry_sync`, `_needs_rotation`, `_rotate_log`,
`_get_current_log_path` (logger_service.py, lines 42-72 and 122-136).  The
file system is an association list from paths (relative to `logs_dir`) to the
list of rows of the file; the byte size of a file is the sum of the lengths
of its rows. -/

abbrev FileSys := List (String × List String)

def file_exists (fs : FileSys) (p : String) : Bool :=
  (alist_lookup fs p).isSome

def file_records (fs : FileSys) (p : String) : List String :=
  (alist_lookup fs p).getD []

def file_size (fs : FileSys) (p : String) : ℕ :=
  ((file_records fs p).map String.length).sum

/-- Active file path `f'{log_type}_{date_str}.csv'` with `date_str` of the
form `%Y%m%d`. -/
def current_log_path (log_type date : String) : String :=
  log_type ++ "_" ++ date ++ ".csv"

/-- Archived file path `f'archive/{log_type}_{timestamp}.csv'` with
`timestamp` of the form `%Y%m%d_%H%M%S`. -/
def archived_log_path (log_type ts : String) : String :=
  "archive/" ++ log_type ++ "_" ++ ts ++ ".csv"

/-- Embedding of `_needs_rotation`: a missing file never rotates; otherwise
rotate once the size reached the configured threshold. -/
def needs_rotation (fs : FileSys) (p : String) (max_size : ℕ) : Bool :=
  file_exists fs p && decide (file_size fs p ≥ max_size)

/-- Embedding of `_rotate_log`: `os.rename` of the current file to the
archive location (the current path disappears, the archive path now holds its
content). -/
def rotate_log (fs : FileSys) (log_type date ts : String) : FileSys :=
  let current := current_log_path log_type date
  if file_exists fs current then
    alist_store (alist_remove fs current) (archived_log_path log_type ts)
      (file_records fs current)
  else fs

def header_row (headers : List String) : String :=
  String.intercalate "," (headers ++ ["timestamp"])

def data_row (data : List String) (now : String) : String :=
  String.intercalate "," (data ++ [now])

/-- Embedding of `_write_log_entry_sync`: the rotation check happens before
the record is written; a fresh file first receives the header row; the data
row with the write timestamp is appended afterwards. -/
def write_log_entry_sync (fs : FileSys) (log_type : String)
    (headers data : List String) (date ts now : String) (max_size : ℕ) :
    FileSys :=
  let p := current_log_path log_type date
  let fs1 := if needs_rotation fs p max_size then rotate_log fs log_type date ts
             else fs
  let new_content :=
    file_records fs1 p ++
      (if file_exists fs1 p then [] else [header_row headers]) ++
      [data_row data now]
  alist_store fs1 p new_content

/-! ## Helper lemmas about the fusion step -/

theorem fusion_core_high (b : ℚ) (rr : RegexResult) (m : ℚ) (score : ℤ)
    (h : (score : ℚ) / 100 > 4/5) :
    fusion_core b rr m score =
      { is_threat := decide (min 1 ((b * (2/10) + rr.confidence * (3/10) +
            m * (5/10)) * (1 + (1 - (score : ℚ)/100) * (3/10))) > 9/10),
        final_confidence := min 1 ((b * (2/10) + rr.confidence * (3/10) +
            m * (5/10)) * (1 + (1 - (score : ℚ)/100) * (3/10))),
        weighted_confidence := b * (2/10) + rr.confidence * (3/10) + m * (5/10),
        reputation_factor := (score : ℚ)/100,
        confidence_threshold := 9/10,
        components_base_confidence := b,
        components_regex := rr,
        components_ml_confidence := m } := by
  simp [fusion_core, h]

theorem fusion_core_low (b : ℚ) (rr : RegexResult) (m : ℚ) (score : ℤ)
    (h1 : ¬ (score : ℚ) / 100 > 4/5) (h2 : (score : ℚ) / 100 < 3/10) :
    fusion_core b rr m score =
      { is_threat := decide (min 1 ((b * (4/10) + rr.confidence * (4/10) +
            m * (2/10)) * (1 + (1 - (score : ℚ)/100) * (3/10))) > 6/10),
        final_confidence := min 1 ((b * (4/10) + rr.confidence * (4/10) +
            m * (2/10)) * (1 + (1 - (score : ℚ)/100) * (3/10))),
        weighted_confidence := b * (4/10) + rr.confidence * (4/10) + m * (2/10),
        reputation_factor := (score : ℚ)/100,
        confidence_threshold := 6/10,
        components_base_confidence := b,
        components_regex := rr,
        components_ml_confidence := m } := by
  simp [fusion_core, h1, h2]

theorem fusion_core_mid (b : ℚ) (rr : RegexResult) (m : ℚ) (score : ℤ)
    (h1 : ¬ (score : ℚ) / 100 > 4/5) (h2 : ¬ (score : ℚ) / 100 < 3/10) :
    fusion_core b rr m score =
      { is_threat := decide (min 1 ((b * (3/10) + rr.confidence * (4/10) +
            m * (3/10)) * (1 + (1 - (score : ℚ)/100) * (3/10))) > 75/100),
        final_confidence := min 1 ((b * (3/10) + rr.confidence * (4/10) +
            m * (3/10)) * (1 + (1 - (score : ℚ)/100) * (3/10))),
        weighted_confidence := b * (3/10) + rr.confidence * (4/10) + m * (3/10),
        reputation_factor := (score : ℚ)/100,
        confidence_threshold := 75/100,
        components_base_confidence := b,
        components_regex := rr,
        components_ml_confidence := m } := by
  simp [fusion_core, h1, h2]

/-! ## Claim theorems -/

/-- C1: for every event the fusion step selects the weight triple and the
threshold solely from the reputation bucket (`r > 0.8`: weights
base 0.2 / regex 0.3 / classifier 0.5, threshold 0.9; `r < 0.3`:
0.4 / 0.4 / 0.2, threshold 0.6; otherwise 0.3 / 0.4 / 0.3, threshold 0.75),
computes the weighted sum, `adjusted = min(1, weighted * (1 + (1-r)*0.3))`
and `is_threat = (adjusted > threshold)`; the fixture — reputation 100, regex
confidence 0.5, classifier confidence 0.5, no base signal — yields
`weighted = 0.40`, `adjusted = 0.40` and `is_threat = false`. -/
theorem C1_fusion_weights_threshold_fixture (b : ℚ) (rr : RegexResult)
    (m : ℚ) (score : ℤ) :
    ((score : ℚ)/100 > 4/5 →
       (fusion_core b rr m score).weighted_confidence =
           b * (2/10) + rr.confidence * (3/10) + m * (5/10) ∧
       (fusion_core b rr m score).confidence_threshold = 9/10) ∧
    (¬ (score : ℚ)/100 > 4/5 → (score : ℚ)/100 < 3/10 →
       (fusion_core b rr m score).weighted_confidence =
           b * (4/10) + rr.confidence * (4/10) + m * (2/10) ∧
       (fusion_core b rr m score).confidence_threshold = 6/10) ∧
    (¬ (score : ℚ)/100 > 4/5 → ¬ (score : ℚ)/100 < 3/10 →
       (fusion_core b rr m score).weighted_confidence =
           b * (3/10) + rr.confidence * (4/10) + m * (3/10) ∧
       (fusion_core b rr m score).confidence_threshold = 75/100) ∧
    (fusion_core b rr m score).final_confidence =
        min 1 ((fusion_core b rr m score).weighted_confidence *
          (1 + (1 - (score : ℚ)/100) * (3/10))) ∧
    ((fusion_core b rr m score).is_threat = true ↔
        (fusion_core b rr m score).final_confidence >
          (fusion_core b rr m score).confidence_threshold) ∧
    (fusion_core 0 ⟨[], 1/2, 0⟩ (1/2) 100).weighted_confidence = 2/5 ∧
    (fusion_core 0 ⟨[], 1/2, 0⟩ (1/2) 100).final_confidence = 2/5 ∧
    (fusion_core 0 ⟨[], 1/2, 0⟩ (1/2) 100).is_threat = false := by
  refine ⟨?_, ?_, ?_, ?_, ?_, ?_, ?_, ?_⟩
  · intro h
    rw [fusion_core_high b rr m score h]
    exact ⟨rfl, rfl⟩
  · intro h1 h2
    rw [fusion_core_low b rr m score h1 h2]
    exact ⟨rfl, rfl⟩
  · intro h1 h2
    rw [fusion_core_mid b rr m score h1 h2]
    exact ⟨rfl, rfl⟩
  · by_cases h1 : (score : ℚ)/100 > 4/5
    · rw [fusion_core_high b rr m score h1]
    · by_cases h2 : (score : ℚ)/100 < 3/10
      · rw [fusion_core_low b rr m score h1 h2]
      · rw [fusion_core_mid b rr m score h1 h2]
  · by_cases h1 : (score : ℚ)/100 > 4/5
    · rw [fusion_core_high b rr m score h1]
      simp
    · by_cases h2 : (score : ℚ)/100 < 3/10
      · rw [fusion_core_low b rr m score h1 h2]
        simp
      · rw [fusion_core_mid b rr m score h1 h2]
        simp
  · rw [fusion_core_high 0 ⟨[], 1/2, 0⟩ (1/2) 100 (by norm_num)]
    norm_num
  · rw [fusion_core_high 0 ⟨[], 1/2, 0⟩ (1/2) 100 (by norm_num)]
    norm_num [min_def]
  · rw [fusion_core_high 0 ⟨[], 1/2, 0⟩ (1/2) 100 (by norm_num)]
    norm_num [min_def]

/-- Witness for C1: the high-reputation bucket hypothesis discharged at
score 100 together with the fixture. -/
theorem C1_witness :
    ((100 : ℤ) : ℚ)/100 > 4/5 ∧
    (fusion_core 0 ⟨[], 1/2, 0⟩ (1/2) 100).confidence_threshold = 9/10 ∧
    (fusion_core 0 ⟨[], 1/2, 0⟩ (1/2) 100).is_threat = false := by
  have h := C1_fusion_weights_threshold_fixture 0 ⟨[], 1/2, 0⟩ (1/2) 100
  exact ⟨by norm_num, (h.1 (by norm_num)).2, h.2.2.2.2.2.2.2⟩

/-- C3 concerns `_create_alert` (lines 313-324): its `timestamp` field reads
`result['timestamp']`, but the dict returned by `_fusion_decision` has no
`timestamp` key, so building the alert raises `KeyError` for every positive
decision instead of succeeding; this theorem evaluates the embedded alert
builder and shows the error for every decision and event. -/
theorem C3_create_alert_always_keyerror (d : FusionDecision)
    (payload ip now : String) :
    create_alert d payload ip now = Except.error "KeyError: timestamp" := by
  unfold create_alert
  rw [if_neg]
  simp [fusion_result_keys]

/-- C9: for every text scored by the trained classifier, `analyze_with_ml`
returns the probability of the predicted class — for a benign prediction (0)
the probability of benignity, not of threat — and that value is what enters
the fusion's weighted sum with the classifier weight. -/
theorem C9_ml_confidence_of_predicted_class (predict : String → ℕ)
    (predict_proba : String → ℚ × ℚ) (text : String) (b : ℚ)
    (rr : RegexResult) :
    ((analyze_with_ml true predict predict_proba text).confidence =
       if predict text = 1 then (predict_proba text).2
       else (predict_proba text).1) ∧
    (predict text = 0 →
       (analyze_with_ml true predict predict_proba text).confidence =
         (predict_proba text).1) ∧
    (predict text = 0 →
       (fusion_core b rr
           (analyze_with_ml true predict predict_proba text).confidence
           100).weighted_confidence =
         b * (2/10) + rr.confidence * (3/10) +
           (predict_proba text).1 * (5/10)) := by
  refine ⟨by simp [analyze_with_ml], ?_, ?_⟩
  · intro h
    simp [analyze_with_ml, h]
  · intro h
    rw [fusion_core_high b rr _ 100 (by norm_num)]
    simp [analyze_with_ml, h]

/-- Witness for C9: a classifier that is certain of benignity contributes
confidence 1 to the fusion sum. -/
theorem C9_witness :
    (fun _ : String => (0 : ℕ)) "q" = 0 ∧
    (analyze_with_ml true (fun _ => 0) (fun _ => ((1 : ℚ), 0)) "q").confidence
      = 1 ∧
    (fusion_core 0 ⟨[], 0, 0⟩
        (analyze_with_ml true (fun _ => 0) (fun _ => ((1 : ℚ), 0))
          "q").confidence 100).weighted_confidence =
      0 * (2/10) + (0 : ℚ) * (3/10) + 1 * (5/10) := by
  have h := C9_ml_confidence_of_predicted_class (fun _ => 0)
    (fun _ => ((1 : ℚ), 0)) "q" 0 ⟨[], 0, 0⟩
  exact ⟨rfl, h.2.1 rfl, by simpa using h.2.2 rfl⟩

/-- C10: merely computing a fusion decision for a source id not yet tracked
inserts it into the reputation map with the default score 100 (the
`defaultdict` read is not side-effect-free); the insertion is visible in the
`total_tracked_ips` statistic, no other entry changes, and the decision is
the one computed at score 100. -/
theorem C10_fusion_read_inserts_default (m : RepMap) (b : ℚ)
    (rr : RegexResult) (c : ℚ) (ip : String)
    (h : alist_lookup m ip = none) :
    alist_lookup (fusion_decision m b rr c ip).2 ip = some 100 ∧
    total_tracked_ips (fusion_decision m b rr c ip).2 =
      total_tracked_ips m + 1 ∧
    (∀ k, k ≠ ip →
       alist_lookup (fusion_decision m b rr c ip).2 k = alist_lookup m k) ∧
    (fusion_decision m b rr c ip).1 = fusion_core b rr c 100 := by
  unfold fusion_decision rep_read
  rw [h]
  refine ⟨alist_lookup_append_none 100 h, ?_, ?_, rfl⟩
  · simp [total_tracked_ips]
  · intro k hk
    exact alist_lookup_append_other m 100 hk

/-- Witness for C10: the unseen-source hypothesis discharged on the empty
reputation map. -/
theorem C10_witness :
    alist_lookup ([] : RepMap) "10.0.0.5" = none ∧
    alist_lookup (fusion_decision [] 0 ⟨[], 0, 0⟩ 0 "10.0.0.5").2 "10.0.0.5"
      = some 100 ∧
    total_tracked_ips (fusion_decision [] 0 ⟨[], 0, 0⟩ 0 "10.0.0.5").2 = 1 := by
  have h := C10_fusion_read_inserts_default [] 0 ⟨[], 0, 0⟩ 0 "10.0.0.5" rfl
  exact ⟨rfl, h.1, h.2.1⟩

/-- C6: the regex evaluator contributes at most once per category (the first
matching pattern short-circuits the category), non-matching categories
contribute nothing, and the returned confidence is the arithmetic mean of the
matched categories' tier confidences — 0.0 when nothing matched — and always
lies in [0,1]. -/
theorem C6_regex_mean_and_bounds (rmatch : String → String → Bool)
    (text : String) :
    (analyze_with_regex rmatch text).threats_detected =
        (matched_categories rmatch text).map (fun c => threat_type_of c.1) ∧
    (analyze_with_regex rmatch text).pattern_matches =
        (matched_categories rmatch text).length ∧
    (analyze_with_regex rmatch text).confidence =
        (if (matched_categories rmatch text).isEmpty then 0
         else ((matched_categories rmatch text).map
                 (fun c => tier_confidence c.1)).sum /
              ((matched_categories rmatch text).length : ℚ)) ∧
    0 ≤ (analyze_with_regex rmatch text).confidence ∧
    (analyze_with_regex rmatch text).confidence ≤ 1 := by
  rw [analyze_with_regex_eq]
  have hb := sum_bounded_of_forall
    (l := (matched_categories rmatch text).map (fun c => tier_confidence c.1))
    (by
      intro x hx
      obtain ⟨c, _, hc⟩ := List.mem_map.mp hx
      rw [← hc]
      rcases tier_confidence_mem c.1 with h | h <;> rw [h] <;> norm_num)
  have hlen : ¬ (matched_categories rmatch text).isEmpty = true →
      (0 : ℚ) < ((matched_categories rmatch text).length : ℚ) := by
    intro hmc
    have hne : matched_categories rmatch text ≠ [] :=
      fun hh => hmc (by simp [hh])
    exact_mod_cast List.length_pos.mpr hne
  refine ⟨rfl, rfl, rfl, ?_, ?_⟩
  · simp only
    by_cases hmc : (matched_categories rmatch text).isEmpty = true
    · rw [if_pos hmc]
    · rw [if_neg hmc]
      exact div_nonneg hb.1 (le_of_lt (hlen hmc))
  · simp only
    by_cases hmc : (matched_categories rmatch text).isEmpty = true
    · rw [if_pos hmc]
      norm_num
    · rw [if_neg hmc]
      rw [div_le_one (hlen hmc)]
      simpa using hb.2

/-- Bound invariant of the reputation map: every stored score lies in
[0,100]. -/
def scores_bounded (m : RepMap) : Prop :=
  ∀ k v, alist_lookup m k = some v → 0 ≤ v ∧ v ≤ 100

theorem scores_bounded_nil : scores_bounded [] := by
  intro k v h
  simp [alist_lookup] at h

theorem rep_read_fst_bounds {m : RepMap} (key : String)
    (h : scores_bounded m) :
    0 ≤ (rep_read m key).1 ∧ (rep_read m key).1 ≤ 100 := by
  unfold rep_read
  cases hl : alist_lookup m key with
  | some v => exact h key v hl
  | none => norm_num

theorem rep_read_snd_bounded {m : RepMap} (key : String)
    (h : scores_bounded m) : scores_bounded (rep_read m key).2 := by
  unfold rep_read
  cases hl : alist_lookup m key with
  | some v => exact h
  | none =>
      intro k v hv
      rcases alist_lookup_append_cases hv with hold | hnew
      · exact h k v hold
      · subst hnew
        norm_num

theorem calculate_reputation_score_bounded (m : RepMap) (ip : String)
    (t : Bool) (h : scores_bounded m) :
    scores_bounded (calculate_reputation_score m ip t).2 := by
  intro k v hv
  unfold calculate_reputation_score at hv
  simp only at hv
  rcases alist_lookup_store_cases hv with ⟨hk, hv'⟩ | hold
  · subst hv'
    have hb := rep_read_fst_bounds ip h
    cases t <;> simp <;> omega
  · exact rep_read_snd_bounded ip h k v hold

theorem apply_updates_bounded (us : List (String × Bool)) :
    ∀ m : RepMap, scores_bounded m → scores_bounded (apply_updates us m) := by
  induction us with
  | nil => intro m h; exact h
  | cons u rest ih =>
      intro m h
      exact ih _ (calculate_reputation_score_bounded m u.1 u.2 h)

/-- C5: starting from the fresh tracker, after any sequence of updates an
unseen source still reads as 100, an update applies `max(0, s-20)` on a
threat and `min(100, s+1)` otherwise, every stored score lies in [0,100], a
threat update never increases a score and a clean update never decreases
one. -/
theorem C5_reputation_update_spec (us : List (String × Bool)) (ip : String) :
    (alist_lookup (apply_updates us []) ip = none →
       (rep_read (apply_updates us []) ip).1 = 100) ∧
    (∀ t : Bool, (calculate_reputation_score (apply_updates us []) ip t).1 =
       if t then max 0 ((rep_read (apply_updates us []) ip).1 - 20)
       else min 100 ((rep_read (apply_updates us []) ip).1 + 1)) ∧
    (∀ k v, alist_lookup (apply_updates us []) k = some v →
       0 ≤ v ∧ v ≤ 100) ∧
    (calculate_reputation_score (apply_updates us []) ip true).1 ≤
       (rep_read (apply_updates us []) ip).1 ∧
    (rep_read (apply_updates us []) ip).1 ≤
       (calculate_reputation_score (apply_updates us []) ip false).1 := by
  have hbound := apply_updates_bounded us [] scores_bounded_nil
  have hread := rep_read_fst_bounds (m := apply_updates us []) ip hbound
  refine ⟨?_, ?_, hbound, ?_, ?_⟩
  · intro h
    unfold rep_read
    rw [h]
  · intro t
    rfl
  · obtain ⟨hr0, hr1⟩ := hread
    have h4 : (calculate_reputation_score (apply_updates us []) ip true).1 =
        max 0 ((rep_read (apply_updates us []) ip).1 - 20) := rfl
    rw [h4]
    omega
  · obtain ⟨hr0, hr1⟩ := hread
    have h5 : (calculate_reputation_score (apply_updates us []) ip false).1 =
        min 100 ((rep_read (apply_updates us []) ip).1 + 1) := rfl
    rw [h5]
    omega

/-- Witness for C5: after the update sequence
`threat("a"), clean("a"), threat("b")` the tracked scores are in range, an
unseen ip reads 100, and the next updates move as specified. -/
theorem C5_witness :
    (rep_read (apply_updates [("a", true), ("a", false), ("b", true)] [])
        "10.1.1.1").1 = 100 ∧
    (calculate_reputation_score
        (apply_updates [("a", true), ("a", false), ("b", true)] []) "a"
        true).1 = 61 ∧
    (0 : ℤ) ≤ 81 ∧ (81 : ℤ) ≤ 100 := by
  have h := C5_reputation_update_spec [("a", true), ("a", false), ("b", true)]
    "10.1.1.1"
  have h2 := C5_reputation_update_spec [("a", true), ("a", false), ("b", true)]
    "a"
  refine ⟨h.1 rfl, ?_, by norm_num, by norm_num⟩
  have := h2.2.1 true
  rw [this]
  rfl

theorem analyze_with_base_confidence_bounds (has_base : Bool)
    (outcome : Option Bool) :
    0 ≤ (analyze_with_base has_base outcome).confidence ∧
    (analyze_with_base has_base outcome).confidence ≤ 7/10 := by
  cases has_base <;> rcases outcome with _ | d
  · norm_num [analyze_with_base]
  · norm_num [analyze_with_base]
  · norm_num [analyze_with_base]
  · cases d <;> norm_num [analyze_with_base]

theorem regex_confidence_zero_of_no_threats (rmatch : String → String → Bool)
    (text : String)
    (h : (analyze_with_regex rmatch text).threats_detected = []) :
    (analyze_with_regex rmatch text).confidence = 0 := by
  rw [analyze_with_regex_eq] at h ⊢
  simp only at h ⊢
  have hmc : matched_categories rmatch text = [] := List.map_eq_nil_iff.mp h
  rw [hmc]
  simp

/-- C2: a decision of the pipeline with `is_threat = true` requires at least
one detected regex category or a classifier confidence above the analyzer's
own classifier threshold (0.85); reputation weighting alone over signals that
detected nothing (base confidence at most 0.7, regex empty, classifier at or
below 0.85) can never cross any bucket's decision threshold. -/
theorem C2_threat_needs_regex_or_classifier (has_base : Bool)
    (outcome : Option Bool) (rmatch : String → String → Bool) (text : String)
    (ml_conf : ℚ) (score : ℤ) (h_ml : 0 ≤ ml_conf) (h_s0 : 0 ≤ score)
    (h_s1 : score ≤ 100) :
    (fusion_core (analyze_with_base has_base outcome).confidence
        (analyze_with_regex rmatch text) ml_conf score).is_threat = true →
    (analyze_with_regex rmatch text).threats_detected ≠ [] ∨
      ml_conf > 17/20 := by
  intro hthreat
  by_contra hcon
  push_neg at hcon
  obtain ⟨hemp, hml⟩ := hcon
  have hrc : (analyze_with_regex rmatch text).confidence = 0 :=
    regex_confidence_zero_of_no_threats rmatch text hemp
  obtain ⟨hb0, hb1⟩ := analyze_with_base_confidence_bounds has_base outcome
  have hr0 : (0 : ℚ) ≤ (score : ℚ)/100 :=
    div_nonneg (by exact_mod_cast h_s0) (by norm_num)
  have hr1 : (score : ℚ)/100 ≤ 1 := by
    rw [div_le_one (by norm_num)]
    exact_mod_cast h_s1
  set b := (analyze_with_base has_base outcome).confidence
  set r : ℚ := (score : ℚ)/100 with hrdef
  by_cases h1 : r > 4/5
  · rw [fusion_core_high b _ ml_conf score h1] at hthreat
    simp only [decide_eq_true_eq, hrc] at hthreat
    have hmin : min 1 ((b * (2/10) + 0 * (3/10) + ml_conf * (5/10)) *
        (1 + (1 - r) * (3/10))) ≤
        (b * (2/10) + 0 * (3/10) + ml_conf * (5/10)) *
        (1 + (1 - r) * (3/10)) := min_le_right _ _
    have hw : b * (2/10) + 0 * (3/10) + ml_conf * (5/10) ≤ 113/200 := by
      nlinarith
    have hw0 : 0 ≤ b * (2/10) + 0 * (3/10) + ml_conf * (5/10) := by
      nlinarith
    have hm1 : 1 + (1 - r) * (3/10) ≤ 53/50 := by nlinarith
    have hm0 : 0 ≤ 1 + (1 - r) * (3/10) := by nlinarith
    have := mul_le_mul hw hm1 hm0 (by norm_num : (0:ℚ) ≤ 113/200)
    linarith
  · by_cases h2 : r < 3/10
    · rw [fusion_core_low b _ ml_conf score h1 h2] at hthreat
      simp only [decide_eq_true_eq, hrc] at hthreat
      have hmin : min 1 ((b * (4/10) + 0 * (4/10) + ml_conf * (2/10)) *
          (1 + (1 - r) * (3/10))) ≤
          (b * (4/10) + 0 * (4/10) + ml_conf * (2/10)) *
          (1 + (1 - r) * (3/10)) := min_le_right _ _
      have hw : b * (4/10) + 0 * (4/10) + ml_conf * (2/10) ≤ 9/20 := by
        nlinarith
      have hw0 : 0 ≤ b * (4/10) + 0 * (4/10) + ml_conf * (2/10) := by
        nlinarith
      have hm1 : 1 + (1 - r) * (3/10) ≤ 13/10 := by nlinarith
      have hm0 : 0 ≤ 1 + (1 - r) * (3/10) := by nlinarith
      have := mul_le_mul hw hm1 hm0 (by norm_num : (0:ℚ) ≤ 9/20)
      linarith
    · rw [fusion_core_mid b _ ml_conf score h1 h2] at hthreat
      simp only [decide_eq_true_eq, hrc] at hthreat
      have hmin : min 1 ((b * (3/10) + 0 * (4/10) + ml_conf * (3/10)) *
          (1 + (1 - r) * (3/10))) ≤
          (b * (3/10) + 0 * (4/10) + ml_conf * (3/10)) *
          (1 + (1 - r) * (3/10)) := min_le_right _ _
      have hw : b * (3/10) + 0 * (4/10) + ml_conf * (3/10) ≤ 93/200 := by
        nlinarith
      have hw0 : 0 ≤ b * (3/10) + 0 * (4/10) + ml_conf * (3/10) := by
        nlinarith
      have hm1 : 1 + (1 - r) * (3/10) ≤ 121/100 := by
        push_neg at h2
        nlinarith
      have hm0 : 0 ≤ 1 + (1 - r) * (3/10) := by nlinarith
      have := mul_le_mul hw hm1 hm0 (by norm_num : (0:ℚ) ≤ 93/200)
      linarith

/-- Witness for C2: with no signals at all and a perfect reputation the
hypotheses hold and the decision is negative, so the disjunction holds
vacuously. -/
theorem C2_witness :
    ((0 : ℚ) ≤ 0 ∧ (0 : ℤ) ≤ 100 ∧ (100 : ℤ) ≤ 100) ∧
    ((fusion_core (analyze_with_base false none).confidence
        (analyze_with_regex (fun _ _ => false) "") 0 100).is_threat = true →
      (analyze_with_regex (fun _ _ => false) "").threats_detected ≠ [] ∨
        (0 : ℚ) > 17/20) := by
  refine ⟨⟨le_refl 0, by norm_num, by norm_num⟩, ?_⟩
  exact C2_threat_needs_regex_or_classifier false none (fun _ _ => false) ""
    0 100 (le_refl 0) (by norm_num) (by norm_num)

/-- C4: `log_event` always returns a boolean and never silently drops an
entry: a push below capacity succeeds without touching the writer and spawns
the background flush exactly when the queue is at or above half capacity; on
a full queue the entire queue is synchronously flushed to the writer before
the one retry; a `false` return happens only when the final direct
synchronous write reported failure, and even then the entry was handed to the
writer; in every case the new entry and every previously queued entry remain
in the queue or with the writer. -/
theorem C4_log_event_never_drops (st : LoggerState) (e : ℕ) (intf : List ℕ)
    (ok : Bool) :
    (st.buffer.length < st.capacity →
       (log_event st e intf ok).1 = true ∧
       (log_event st e intf ok).2.1.buffer = st.buffer ++ [e] ∧
       (log_event st e intf ok).2.1.writes = st.writes ∧
       ((log_event st e intf ok).2.2 = true ↔
          st.capacity / 2 ≤ st.buffer.length + 1)) ∧
    (¬ st.buffer.length < st.capacity →
       ∀ x ∈ st.buffer, x ∈ (log_event st e intf ok).2.1.writes) ∧
    ((log_event st e intf ok).1 = false →
       ok = false ∧ e ∈ (log_event st e intf ok).2.1.writes) ∧
    (e ∈ (log_event st e intf ok).2.1.buffer ∨
       e ∈ (log_event st e intf ok).2.1.writes) ∧
    (∀ x ∈ st.buffer, x ∈ (log_event st e intf ok).2.1.buffer ∨
       x ∈ (log_event st e intf ok).2.1.writes) := by
  by_cases hfull : st.buffer.length < st.capacity
  · have hres : log_event st e intf ok =
        (true, { st with buffer := st.buffer ++ [e] },
         decide (st.capacity / 2 ≤ (st.buffer ++ [e]).length)) := by
      simp [log_event, put_nowait, hfull, ge_iff_le]
    rw [hres]
    refine ⟨?_, ?_, ?_, ?_, ?_⟩
    · intro _
      refine ⟨rfl, rfl, rfl, ?_⟩
      simp [List.length_append]
    · intro h
      exact (h hfull).elim
    · intro h
      simp at h
    · left
      simp
    · intro x hx
      left
      simp [hx]
  · by_cases h2 : intf.length < st.capacity
    · have hres : log_event st e intf ok =
          (true, { st with buffer := intf.take st.capacity ++ [e],
                           writes := st.writes ++ st.buffer }, false) := by
        simp [log_event, put_nowait, flush_buffer, hfull, h2]
      rw [hres]
      refine ⟨?_, ?_, ?_, ?_, ?_⟩
      · intro h
        exact (hfull h).elim
      · intro _ x hx
        simp [List.mem_append, hx]
      · intro h
        simp at h
      · left
        simp
      · intro x hx
        right
        simp [List.mem_append, hx]
    · have hres : log_event st e intf ok =
          (ok, { st with buffer := intf.take st.capacity,
                         writes := st.writes ++ st.buffer ++ [e] }, false) := by
        simp [log_event, put_nowait, flush_buffer, hfull, h2]
      rw [hres]
      refine ⟨?_, ?_, ?_, ?_, ?_⟩
      · intro h
        exact (hfull h).elim
      · intro _ x hx
        simp [List.mem_append, hx]
      · intro h
        exact ⟨h, by simp⟩
      · right
        simp
      · intro x hx
        right
        simp [List.mem_append, hx]

/-- Witness for C4: a push onto a queue with free space is accepted (half
capacity reached, so the background flush is spawned), and a push onto a full
queue of capacity 1 flushes the queued entry to the writer and accepts the
new entry on retry. -/
theorem C4_witness :
    ((log_event ⟨[], [], 2⟩ 5 [] true).1 = true ∧
       (log_event ⟨[], [], 2⟩ 5 [] true).2.2 = true) ∧
    (∀ x ∈ [1], x ∈ (log_event ⟨[1], [], 1⟩ 2 [] true).2.1.writes) ∧
    (2 ∈ (log_event ⟨[1], [], 1⟩ 2 [] true).2.1.buffer ∨
       2 ∈ (log_event ⟨[1], [], 1⟩ 2 [] true).2.1.writes) := by
  have ha := C4_log_event_never_drops ⟨[], [], 2⟩ 5 [] true
  have hb := C4_log_event_never_drops ⟨[1], [], 1⟩ 2 [] true
  exact ⟨⟨(ha.1 (by norm_num)).1, ((ha.1 (by norm_num)).2.2.2).mpr (by norm_num)⟩,
    hb.2.1 (by norm_num), hb.2.2.2.1⟩

/-- C7: the rotation check precedes the write, so when the active file has
reached the size threshold its whole prior content is renamed to the archive
path — a name distinct from the active path — and the record of this write
lands, complete and alone after the fresh header, in the newly created active
file, with no part of it in the archive. -/
theorem C7_rotation_before_write (fs : FileSys) (lt : String)
    (headers data : List String) (date ts now : String) (max_size : ℕ)
    (hdate : date.length = 8) (hts : ts.length = 15)
    (hrot : needs_rotation fs (current_log_path lt date) max_size = true) :
    archived_log_path lt ts ≠ current_log_path lt date ∧
    file_records (write_log_entry_sync fs lt headers data date ts now max_size)
        (archived_log_path lt ts) =
      file_records fs (current_log_path lt date) ∧
    file_records (write_log_entry_sync fs lt headers data date ts now max_size)
        (current_log_path lt date) =
      [header_row headers, data_row data now] := by
  have hne : archived_log_path lt ts ≠ current_log_path lt date := by
    intro h
    have hlen := congrArg String.length h
    have h8 : ("archive/").length = 8 := rfl
    have h1 : ("_").length = 1 := rfl
    have h4 : (".csv").length = 4 := rfl
    simp only [archived_log_path, current_log_path, String.length_append,
      h8, h1, h4, hdate, hts] at hlen
    omega
  have hex : file_exists fs (current_log_path lt date) = true := by
    unfold needs_rotation at hrot
    cases h : file_exists fs (current_log_path lt date)
    · rw [h] at hrot
      simp at hrot
    · rfl
  have hfs1 : rotate_log fs lt date ts =
      alist_store (alist_remove fs (current_log_path lt date))
        (archived_log_path lt ts)
        (file_records fs (current_log_path lt date)) := by
    unfold rotate_log
    rw [if_pos hex]
  have hlook_cur :
      alist_lookup (rotate_log fs lt date ts) (current_log_path lt date) =
        none := by
    rw [hfs1, alist_lookup_store_other _ _ (Ne.symm hne)]
    exact alist_lookup_remove_self fs (current_log_path lt date)
  have hfe : file_exists (rotate_log fs lt date ts) (current_log_path lt date)
      = false := by
    unfold file_exists
    rw [hlook_cur]
    rfl
  have hfr : file_records (rotate_log fs lt date ts)
      (current_log_path lt date) = [] := by
    unfold file_records
    rw [hlook_cur]
    rfl
  have hstep : write_log_entry_sync fs lt headers data date ts now max_size =
      alist_store (rotate_log fs lt date ts) (current_log_path lt date)
        [header_row headers, data_row data now] := by
    simp only [write_log_entry_sync]
    rw [if_pos hrot, hfe, hfr]
    simp
  refine ⟨hne, ?_, ?_⟩
  · rw [hstep, file_records, alist_lookup_store_other _ _ hne, hfs1,
      alist_lookup_store_self]
    rfl
  · rw [hstep, file_records, alist_lookup_store_self]
    rfl

/-- Witness for C7: a one-row active file over the 1-byte threshold is
archived whole and the next write creates a fresh active file holding the
header and the new record. -/
theorem C7_witness :
    ("20250101" : String).length = 8 ∧ ("20250101_120000" : String).length = 15 ∧
    needs_rotation [("t_20250101.csv", ["abcd"])] (current_log_path "t" "20250101") 1 = true ∧
    file_records
        (write_log_entry_sync [("t_20250101.csv", ["abcd"])] "t" ["h"] ["d"]
          "20250101" "20250101_120000" "now" 1)
        (archived_log_path "t" "20250101_120000") = ["abcd"] ∧
    file_records
        (write_log_entry_sync [("t_20250101.csv", ["abcd"])] "t" ["h"] ["d"]
          "20250101" "20250101_120000" "now" 1)
        (current_log_path "t" "20250101") =
      [header_row ["h"], data_row ["d"] "now"] := by
  have h := C7_rotation_before_write [("t_20250101.csv", ["abcd"])] "t"
    ["h"] ["d"] "20250101" "20250101_120000" "now" 1 rfl rfl rfl
  exact ⟨rfl, rfl, rfl, h.2.1, h.2.2⟩

/-- C8 counterexample: the claim says a malformed (non-dict) event is
rejected by the analysis entry point without raising; the code of
`hybrid_analysis` increments the request counter and then calls
`log_data.get` on the non-dict value, which raises `AttributeError`, so the
embedded entry point returns an error — and the claimed empty-string default
is also wrong for the `ip` field, whose default is `'unknown'`. -/
theorem C8_counterexample :
    (hybrid_analysis ⟨0, []⟩ true false none (fun _ _ => false) (fun _ => 0)
        (fun _ => (1, 0)) true (.raw "GET /")).1 =
      Except.error "AttributeError" ∧
    (hybrid_analysis ⟨0, []⟩ true false none (fun _ _ => false) (fun _ => 0)
        (fun _ => (1, 0)) true (.raw "GET /")).2.total_requests = 1 ∧
    event_ip [] = "unknown" := ⟨rfl, rfl, rfl⟩

/-- C8 (amended): `hybrid_analysis` counts a malformed event and then raises
`AttributeError` before any signal or fusion runs; the base analyzer's
`analyze_log_line` rejects a non-dict without raising and without counting;
for well-formed events a missing `path` or `payload` defaults to the empty
string while a missing `ip` defaults to `'unknown'`. -/
theorem C8_malformed_ingress (st : AnalyzerState) (use_ml has_base : Bool)
    (outcome : Option Bool) (rmatch : String → String → Bool)
    (predict : String → ℕ) (predict_proba : String → ℚ × ℚ) (trained : Bool)
    (s : String) :
    hybrid_analysis st use_ml has_base outcome rmatch predict predict_proba
        trained (.raw s) =
      (Except.error "AttributeError",
       { st with total_requests := st.total_requests + 1 }) ∧
    (∀ (bst : BaseStats) (detect : String → String → String → Bool),
       base_analyze_log_line bst detect (.raw s) = (none, bst)) ∧
    (∀ fields, alist_lookup fields "ip" = none →
       event_ip fields = "unknown") ∧
    (∀ fields, alist_lookup fields "path" = none →
       alist_lookup fields "payload" = none → event_text fields = " ") := by
  refine ⟨rfl, fun _ _ => rfl, ?_, ?_⟩
  · intro fields h
    simp [event_ip, h]
  · intro fields h1 h2
    simp [event_text, h1, h2]

/-- Witness for C8: the amended behaviour observed on concrete inputs. -/
theorem C8_witness :
    hybrid_analysis ⟨2, []⟩ false false none (fun _ _ => false) (fun _ => 0)
        (fun _ => ((0 : ℚ), 0)) false (.raw "x") =
      (Except.error "AttributeError", ⟨3, []⟩) ∧
    event_ip [] = "unknown" ∧ event_text [] = " " := by
  have h := C8_malformed_ingress ⟨2, []⟩ false false none (fun _ _ => false)
    (fun _ => 0) (fun _ => ((0 : ℚ), 0)) false "x"
  exact ⟨h.1, h.2.2.1 [] rfl, h.2.2.2 [] rfl rfl⟩

end PiResearch
